import Mathlib

/-!
Shallow embedding of `src/filters.py` of the neo-close-approaches repository:
the attribute-filter predicates, the `create_filters` query composer and the
`limit` result limiter, together with the candidate data model they evaluate
over (the `CloseApproach` and `NearEarthObject` records of the collaborator
module, modelled from the spec where the collaborator's source is absent).
-/

deriving instance DecidableEq for Except

namespace NeoFilters

/-- Modelled from the spec: the linked NEO record (`models.py` is not in the
sources).  Its diameter "may be unknown/absent" (in the source a float `NaN`),
modelled as `Option ℚ` with `none` for the unknown value; the hazardous flag
is a boolean. -/
structure NearEarthObject where
  diameter : Option ℚ
  hazardous : Bool
deriving DecidableEq

/-- A timestamp: `approach.time` is a datetime; `approach.time.date()`
discards the time-of-day and keeps the calendar day, modelled as an ordinal
day number `ℤ`. -/
structure Datetime where
  day : ℤ
  timeOfDay : ℕ
deriving DecidableEq

/-- The `date()` method of a datetime: the calendar-day part. -/
def Datetime.date (t : Datetime) : ℤ := t.day

/-- Modelled from the spec: a close-approach candidate record (`models.py` is
not in the sources) with a timestamp, a nominal distance, a relative velocity
and a reference to its linked NEO record. -/
structure CloseApproach where
  time : Datetime
  distance : ℚ
  velocity : ℚ
  neo : NearEarthObject
deriving DecidableEq

/-- The comparison kinds used by `create_filters`: `operator.eq`, `ge`, `le`. -/
inductive Cmp
  | eq
  | ge
  | le
deriving DecidableEq

/-- The field-extraction rule a filter carries: `base` is the unspecialized
`AttributeFilter.get` (which raises `UnsupportedCriterionError`); the others
are the `get` overrides of `DateFilter`, `DistanceFilter`, `VelocityFilter`,
`DiameterFilter` and `HazardousFilter`. -/
inductive FieldKind
  | base
  | date
  | distance
  | velocity
  | diameter
  | hazardous
deriving DecidableEq

/-- A runtime value flowing through a comparison: a calendar date, a numeric
value, the floating-point `NaN` produced by an unknown diameter
(`unknownNum`), or a boolean flag. -/
inductive Value
  | date (d : ℤ)
  | num (q : ℚ)
  | unknownNum
  | flag (b : Bool)
deriving DecidableEq

/-- The numeric content of a value, for Python's numeric comparisons: floats
and bools are numbers (`True` is 1, `False` is 0); `NaN` and dates are not. -/
def Value.numVal : Value → Option ℚ
  | .num q => some q
  | .flag b => some (if b then 1 else 0)
  | _ => none

/-- The errors the embedded code can raise: the repository's own
`UnsupportedCriterionError`, Python's `TypeError` from an unordered
cross-type comparison. -/
inductive FilterError
  | unsupportedCriterion
  | typeError
deriving DecidableEq

/-- Python semantics of `op(x, y)` for `op ∈ {operator.eq, ge, le}` on the
values the filters produce: dates compare with dates; numbers, bools and
`NaN` compare numerically, with any comparison involving `NaN` false
(including equality); `==` across unrelated types is `False`, while an
ordering across unrelated types raises `TypeError`. -/
def applyCmp (c : Cmp) (x y : Value) : Except FilterError Bool :=
  match x, y with
  | .date d, .date e =>
      .ok (match c with
        | .eq => decide (d = e)
        | .ge => decide (e ≤ d)
        | .le => decide (d ≤ e))
  | .date _, _ | _, .date _ =>
      match c with
      | .eq => .ok false
      | _ => .error .typeError
  | x, y =>
      match x.numVal, y.numVal with
      | some a, some b =>
          .ok (match c with
            | .eq => decide (a = b)
            | .ge => decide (b ≤ a)
            | .le => decide (a ≤ b))
      | _, _ => .ok false

/-- An `AttributeFilter` (or one of its concrete subclasses, identified by
`kind`): it holds the comparison operator `op` and the reference value
`value`, which is `none` when the criterion was not specified. -/
structure AttributeFilter where
  kind : FieldKind
  op : Cmp
  value : Option Value
deriving DecidableEq

/-- The field-extraction step: `AttributeFilter.get` and its subclass
overrides.  The unspecialized base `get` raises `UnsupportedCriterionError`;
`DateFilter.get` returns `approach.time.date()`; `DistanceFilter.get` returns
`approach.distance`; `VelocityFilter.get` returns `approach.velocity`;
`DiameterFilter.get` returns `approach.neo.diameter` (the `NaN` value when
the diameter is unknown); `HazardousFilter.get` returns
`approach.neo.hazardous`. -/
def fieldGet (k : FieldKind) (approach : CloseApproach) : Except FilterError Value :=
  match k with
  | .base => .error .unsupportedCriterion
  | .date => .ok (.date approach.time.date)
  | .distance => .ok (.num approach.distance)
  | .velocity => .ok (.num approach.velocity)
  | .diameter =>
      .ok (match approach.neo.diameter with
        | some q => .num q
        | none => .unknownNum)
  | .hazardous => .ok (.flag approach.neo.hazardous)

/-- `AttributeFilter.get` dispatches on the filter's concrete class. -/
def AttributeFilter.get (f : AttributeFilter) (approach : CloseApproach) :
    Except FilterError Value :=
  fieldGet f.kind approach

/-- `AttributeFilter.__call__`: if the reference value is `None` the filter
returns `True` without extracting anything; otherwise it evaluates
`self.op(self.get(approach), self.value)`. -/
def AttributeFilter.call (f : AttributeFilter) (approach : CloseApproach) :
    Except FilterError Bool :=
  match f.value with
  | none => .ok true
  | some v => do
      let x ← f.get approach
      applyCmp f.op x v

/-- `DateFilter(op, value)`: reference values are dates. -/
def DateFilter (op : Cmp) (value : Option ℤ) : AttributeFilter :=
  ⟨.date, op, value.map .date⟩

/-- `DistanceFilter(op, value)`: reference values are numbers. -/
def DistanceFilter (op : Cmp) (value : Option ℚ) : AttributeFilter :=
  ⟨.distance, op, value.map .num⟩

/-- `VelocityFilter(op, value)`: reference values are numbers. -/
def VelocityFilter (op : Cmp) (value : Option ℚ) : AttributeFilter :=
  ⟨.velocity, op, value.map .num⟩

/-- `DiameterFilter(op, value)`: reference values are numbers. -/
def DiameterFilter (op : Cmp) (value : Option ℚ) : AttributeFilter :=
  ⟨.diameter, op, value.map .num⟩

/-- `HazardousFilter(op, value)`: reference values are booleans. -/
def HazardousFilter (op : Cmp) (value : Option Bool) : AttributeFilter :=
  ⟨.hazardous, op, value.map .flag⟩

/-- `create_filters`: appends the ten filters in their fixed order, each
built from the corresponding optional criterion (left as `none` when the
criterion is unspecified). -/
def create_filters
    (date start_date end_date : Option ℤ)
    (distance_min distance_max velocity_min velocity_max
      diameter_min diameter_max : Option ℚ)
    (hazardous : Option Bool) : List AttributeFilter :=
  [DateFilter .eq date,
   DateFilter .ge start_date,
   DateFilter .le end_date,
   DistanceFilter .ge distance_min,
   DistanceFilter .le distance_max,
   VelocityFilter .ge velocity_min,
   VelocityFilter .le velocity_max,
   DiameterFilter .ge diameter_min,
   DiameterFilter .le diameter_max,
   HazardousFilter .eq hazardous]

/-- Modelled from the spec: the conjunctive use of a predicate set by the
collaborator's `query` method (not in the sources) — "a candidate matches the
set iff every predicate in it evaluates true on that candidate" (a
short-circuiting `all`, so a raised error propagates only if reached). -/
def matchesAll (fs : List AttributeFilter) (approach : CloseApproach) :
    Except FilterError Bool :=
  match fs with
  | [] => .ok true
  | f :: rest => do
      let b ← f.call approach
      if b then matchesAll rest approach else .ok false

/-- The error raised by `itertools.islice` on a negative cap. -/
inductive LimitError
  | valueError
deriving DecidableEq

/-- `limit(iterator, n)`: replace a cap of `0` by `None`, then
`itertools.islice(iterator, 0, n)` — the whole sequence when the cap is
`None`, its first `n` items when `n ≥ 0`, and a `ValueError` raised at call
time when `n` is negative. -/
def limit {α : Type} (iterator : List α) (n : Option ℤ) :
    Except LimitError (List α) :=
  let n := if n = some 0 then none else n
  match n with
  | none => .ok iterator
  | some k => if k < 0 then .error .valueError else .ok (iterator.take k.toNat)

/-- A sample candidate: known diameter, hazardous. -/
def approachA : CloseApproach :=
  ⟨⟨737425, 43200⟩, 5, 10, ⟨some 3, true⟩⟩

/-- A sample candidate whose linked object's diameter is unknown. -/
def approachB : CloseApproach :=
  ⟨⟨737426, 0⟩, 50, 20, ⟨none, false⟩⟩

end NeoFilters


namespace NeoFilters

/-- Binding a successful `Except` computation just applies the
continuation. -/
theorem ok_bind {e a b : Type} (x : a) (f : a → Except e b) :
    ((Except.ok x : Except e a) >>= f) = f x := rfl

/-- Stepping lemma for the conjunctive matcher: once the head filter's
verdict is known, the matcher either continues or short-circuits to a
`false` verdict. -/
theorem matchesAll_cons (f : AttributeFilter) (fs : List AttributeFilter)
    (a : CloseApproach) (b : Bool) (hb : f.call a = .ok b) :
    matchesAll (f :: fs) a = if b then matchesAll fs a else .ok false := by
  simp only [matchesAll, hb, ok_bind]

/-- A date filter with an exact-date bound evaluates the equality of the
candidate's calendar day with the bound. -/
theorem dateFilter_eq_call (d : ℤ) (a : CloseApproach) :
    (DateFilter .eq (some d)).call a = .ok (decide (a.time.date = d)) := rfl

/-- A start-date filter evaluates whether the candidate's calendar day is on
or after the bound. -/
theorem dateFilter_ge_call (d : ℤ) (a : CloseApproach) :
    (DateFilter .ge (some d)).call a = .ok (decide (d ≤ a.time.date)) := rfl

/-- An end-date filter evaluates whether the candidate's calendar day is on
or before the bound. -/
theorem dateFilter_le_call (d : ℤ) (a : CloseApproach) :
    (DateFilter .le (some d)).call a = .ok (decide (a.time.date ≤ d)) := rfl

/-- C1: every filter whose reference value is absent — the unspecialized base
`AttributeFilter` included — returns `True` on any candidate; the quantifier
over `FieldKind.base` shows the field-extraction step is not invoked, since
invoking it there would raise instead. -/
theorem vacuous_filter_true (k : FieldKind) (c : Cmp) (a : CloseApproach) :
    (AttributeFilter.mk k c none).call a = .ok true := rfl

/-- C2: for every combination of the ten optional criteria, `create_filters`
returns exactly ten predicates, in the fixed order of field kinds and
comparison operators, each carrying the corresponding criterion as its
reference value (so an absent criterion yields a vacuous filter, included
rather than omitted); the construction is a pure function of its inputs. -/
theorem create_filters_fixed_ten (date start_date end_date : Option ℤ)
    (distance_min distance_max velocity_min velocity_max
      diameter_min diameter_max : Option ℚ) (hazardous : Option Bool) :
    (create_filters date start_date end_date distance_min distance_max
        velocity_min velocity_max diameter_min diameter_max hazardous).length
      = 10 ∧
    (create_filters date start_date end_date distance_min distance_max
        velocity_min velocity_max diameter_min diameter_max hazardous).map
        (fun f => (f.kind, f.op)) =
      [(.date, .eq), (.date, .ge), (.date, .le), (.distance, .ge),
       (.distance, .le), (.velocity, .ge), (.velocity, .le), (.diameter, .ge),
       (.diameter, .le), (.hazardous, .eq)] ∧
    (create_filters date start_date end_date distance_min distance_max
        velocity_min velocity_max diameter_min diameter_max hazardous).map
        (fun f => f.value) =
      [date.map .date, start_date.map .date, end_date.map .date,
       distance_min.map .num, distance_max.map .num, velocity_min.map .num,
       velocity_max.map .num, diameter_min.map .num, diameter_max.map .num,
       hazardous.map .flag] :=
  ⟨rfl, rfl, rfl⟩

/-- C3: on a candidate whose linked object's diameter is unknown, both the
minimum-diameter and the maximum-diameter predicate evaluate to `False` for
every numeric bound, returning normally rather than raising. -/
theorem unknown_diameter_fails_bounds (a : CloseApproach) (q : ℚ)
    (h : a.neo.diameter = none) :
    (DiameterFilter .ge (some q)).call a = .ok false ∧
    (DiameterFilter .le (some q)).call a = .ok false := by
  have hget : fieldGet .diameter a = .ok .unknownNum := by
    simp [fieldGet, h]
  constructor <;>
    simp [DiameterFilter, AttributeFilter.call, AttributeFilter.get, hget,
      ok_bind, applyCmp, Value.numVal]

/-- Witness for C3 at a concrete candidate and the permissive bound `0`. -/
theorem unknown_diameter_fails_bounds_witness :
    approachB.neo.diameter = none ∧
    (DiameterFilter .ge (some 0)).call approachB = .ok false ∧
    (DiameterFilter .le (some 0)).call approachB = .ok false :=
  ⟨rfl, unknown_diameter_fails_bounds approachB 0 rfl⟩

/-- C4: with an absent cap or a cap of zero, `limit` is a transparent
pass-through returning the sequence unchanged. -/
theorem limit_passthrough {α : Type} (seq : List α) :
    limit seq none = .ok seq ∧ limit seq (some 0) = .ok seq :=
  ⟨rfl, rfl⟩

/-- C5: with a positive cap `k`, `limit` yields exactly the first
`min k (length seq)` items of the sequence in order, and its result is
determined by the first `k` elements of the source alone (so a source that
misbehaves past position `k` cannot affect, or fail, the capped result). -/
theorem limit_takes_leading {α : Type} (seq : List α) (k : ℤ) (h : 0 < k) :
    limit seq (some k) = .ok (seq.take k.toNat) ∧
    (seq.take k.toNat).length = min k.toNat seq.length ∧
    ∀ seq2 : List α, seq.take k.toNat = seq2.take k.toNat →
      limit seq (some k) = limit seq2 (some k) := by
  have hk0 : k ≠ 0 := by omega
  have hneg : ¬k < 0 := by omega
  refine ⟨by simp [limit, hk0, hneg], List.length_take _ _, ?_⟩
  intro seq2 hpre
  simp [limit, hk0, hneg, hpre]

/-- Witness for C5 with a four-element sequence capped at two. -/
theorem limit_takes_leading_witness :
    limit [1, 2, 3, 4] (some 2) = .ok [1, 2] :=
  (limit_takes_leading [1, 2, 3, 4] 2 (by decide)).1

/-- C6: calling the unspecialized base `AttributeFilter` with a present
reference value runs its `get`, which raises the distinct
`UnsupportedCriterionError`; the error propagates out of the call uncaught,
and is distinguishable from the other error kind. -/
theorem base_filter_unsupported (c : Cmp) (v : Value) (a : CloseApproach) :
    (AttributeFilter.mk .base c (some v)).call a =
      .error .unsupportedCriterion ∧
    FilterError.unsupportedCriterion ≠ FilterError.typeError :=
  ⟨rfl, by decide⟩

/-- C7: the hazardous criterion is tri-state — `create_filters` places a
hazardous equality filter carrying the given optional flag at the tenth
position; with the flag unspecified that filter matches every candidate,
with `false` it matches exactly the candidates whose object is
non-hazardous, and with `true` exactly the hazardous ones. -/
theorem hazardous_tristate (date start_date end_date : Option ℤ)
    (distance_min distance_max velocity_min velocity_max
      diameter_min diameter_max : Option ℚ) (hazardous : Option Bool)
    (a : CloseApproach) :
    (create_filters date start_date end_date distance_min distance_max
        velocity_min velocity_max diameter_min diameter_max hazardous)[9]? =
      some (HazardousFilter .eq hazardous) ∧
    (HazardousFilter .eq none).call a = .ok true ∧
    (HazardousFilter .eq (some false)).call a = .ok (!a.neo.hazardous) ∧
    (HazardousFilter .eq (some true)).call a = .ok a.neo.hazardous := by
  obtain ⟨t, d, v, ⟨dia, hz⟩⟩ := a
  cases hz <;> exact ⟨rfl, rfl, rfl, rfl⟩

/-- C8 counterexample: on a candidate whose diameter is unknown, the
extracted diameter value is the `NaN` marker, and the equal, `≥` and `≤`
diameter predicates with that very value as reference all return `False`,
refuting the universal reflexivity claim. -/
theorem reflexivity_counterexample :
    fieldGet .diameter approachB = .ok .unknownNum ∧
    (AttributeFilter.mk .diameter .eq (some .unknownNum)).call approachB =
      .ok false ∧
    (AttributeFilter.mk .diameter .ge (some .unknownNum)).call approachB =
      .ok false ∧
    (AttributeFilter.mk .diameter .le (some .unknownNum)).call approachB =
      .ok false :=
  ⟨rfl, rfl, rfl, rfl⟩

/-- C8 (amended): for every field and candidate, when the extracted field
value is an actual value — not the `NaN` of an unknown diameter — the equal,
`≥` and `≤` predicates with that value as reference all return `True`. -/
theorem reflexivity_at_boundary (k : FieldKind) (a : CloseApproach)
    (v : Value) (hget : fieldGet k a = .ok v) (hv : v ≠ .unknownNum) :
    (AttributeFilter.mk k .eq (some v)).call a = .ok true ∧
    (AttributeFilter.mk k .ge (some v)).call a = .ok true ∧
    (AttributeFilter.mk k .le (some v)).call a = .ok true := by
  have hcall : ∀ c : Cmp, (AttributeFilter.mk k c (some v)).call a =
      applyCmp c v v := by
    intro c
    simp [AttributeFilter.call, AttributeFilter.get, hget, ok_bind]
  refine ⟨?_, ?_, ?_⟩ <;> rw [hcall] <;>
    cases v <;> simp_all [applyCmp, Value.numVal]

/-- Witness for C8 (amended) at the distance field of a concrete candidate. -/
theorem reflexivity_at_boundary_witness :
    (AttributeFilter.mk .distance .eq (some (.num 5))).call approachA =
      .ok true ∧
    (AttributeFilter.mk .distance .ge (some (.num 5))).call approachA =
      .ok true ∧
    (AttributeFilter.mk .distance .le (some (.num 5))).call approachA =
      .ok true :=
  reflexivity_at_boundary .distance approachA (.num 5) rfl (by decide)

/-- C9: `create_filters` accepts a start date strictly after the end date
without rejecting (it still returns its ten filters), and the resulting
predicate set matches no candidate: the conjunctive matcher returns a
`false` verdict on every candidate. -/
theorem inconsistent_dates_zero_matches (date : Option ℤ)
    (start_date end_date : ℤ)
    (distance_min distance_max velocity_min velocity_max
      diameter_min diameter_max : Option ℚ) (hazardous : Option Bool)
    (a : CloseApproach) (h : end_date < start_date) :
    (create_filters date (some start_date) (some end_date) distance_min
        distance_max velocity_min velocity_max diameter_min diameter_max
        hazardous).length = 10 ∧
    matchesAll (create_filters date (some start_date) (some end_date)
        distance_min distance_max velocity_min velocity_max diameter_min
        diameter_max hazardous) a = .ok false := by
  refine ⟨rfl, ?_⟩
  have hex : ∀ d : Option ℤ, ∃ b, (DateFilter .eq d).call a = .ok b := by
    intro d
    cases d
    · exact ⟨true, rfl⟩
    · exact ⟨_, rfl⟩
  obtain ⟨b1, hb1⟩ := hex date
  rw [show create_filters date (some start_date) (some end_date) distance_min
      distance_max velocity_min velocity_max diameter_min diameter_max
      hazardous = DateFilter .eq date :: DateFilter .ge (some start_date) ::
      DateFilter .le (some end_date) :: DistanceFilter .ge distance_min ::
      DistanceFilter .le distance_max :: VelocityFilter .ge velocity_min ::
      VelocityFilter .le velocity_max :: DiameterFilter .ge diameter_min ::
      DiameterFilter .le diameter_max :: [HazardousFilter .eq hazardous]
      from rfl]
  rw [matchesAll_cons _ _ _ _ hb1]
  cases b1
  · simp
  · rw [if_pos rfl, matchesAll_cons _ _ _ _ (dateFilter_ge_call start_date a)]
    by_cases hs : start_date ≤ a.time.date
    · rw [if_pos (by simpa using hs),
        matchesAll_cons _ _ _ _ (dateFilter_le_call end_date a)]
      have hle : ¬a.time.date ≤ end_date := by omega
      simp [hle]
    · simp [hs]

/-- Witness for C9: start date 5 after end date 3 still yields ten filters
and excludes a concrete candidate. -/
theorem inconsistent_dates_zero_matches_witness :
    matchesAll (create_filters none (some 5) (some 3) none none none none
      none none none) approachA = .ok false :=
  (inconsistent_dates_zero_matches none 5 3 none none none none none none
    none approachA (by decide)).2

/-- C10: a negative cap makes `limit` raise `ValueError` at call time, for
every sequence alike — in particular the result coincides with the result on
the empty sequence, so no item of the source is consumed before the error. -/
theorem negative_limit_value_error {α : Type} (seq : List α) (k : ℤ)
    (h : k < 0) :
    limit seq (some k) = .error .valueError ∧
    limit seq (some k) = limit ([] : List α) (some k) := by
  have hk0 : k ≠ 0 := by omega
  constructor <;> simp [limit, hk0, h]

/-- Witness for C10 with cap `-1` on a three-element sequence. -/
theorem negative_limit_value_error_witness :
    limit ([1, 2, 3] : List ℕ) (some (-1)) = .error .valueError :=
  (negative_limit_value_error [1, 2, 3] (-1) (by decide)).1

end NeoFilters
